import Mathlib

/-!
Shallow embedding of the SEO Content Briefing Generator (src/app.py).

The script is a single straight-line Streamlit program.  External effects
(HTML fetching via newspaper3k / requests+BeautifulSoup, Google search,
OpenAI chat completions) are modelled by an oracle record; Streamlit
messages (st.error / st.warning) and the external calls issued are
collected explicitly so that gating and call-avoidance claims can be
stated about a run of the script.
-/

/-! ## Python string primitives -/

/-- Python whitespace characters, as used by str.strip() and str.split(). -/
def pyIsSpace (c : Char) : Bool :=
  c = ' ' || c = '\t' || c = '\n' || c = '\r' || c = '\x0b' || c = '\x0c'

/-- Python str.strip(): remove leading and trailing whitespace. -/
def pyStrip (s : String) : String :=
  ⟨((s.data.dropWhile pyIsSpace).reverse.dropWhile pyIsSpace).reverse⟩

/-- Python s[:n]: the first n characters of s (code points). -/
def pyTake (n : Nat) (s : String) : String :=
  ⟨s.data.take n⟩

/-- Helper for pySplit: accumulates the current token (reversed) while
scanning the character list. -/
def pyTokensAux : List Char → List Char → List String
  | cur, [] => if cur.isEmpty then [] else [⟨cur.reverse⟩]
  | cur, c :: cs =>
    if pyIsSpace c then
      if cur.isEmpty then pyTokensAux [] cs
      else ⟨cur.reverse⟩ :: pyTokensAux [] cs
    else pyTokensAux (c :: cur) cs

/-- Python str.split() with no argument: whitespace-delimited tokens,
empty tokens dropped. -/
def pySplit (s : String) : List String :=
  pyTokensAux [] s.data

/-- Python truthiness of a string: non-empty. -/
def pyTruthy (s : String) : Bool :=
  !(s == "")

/-- Python truthiness of an optional string (None and "" are falsy). -/
def optTruthy : Option String → Bool
  | some s => pyTruthy s
  | none => false

/-! ## Data model -/

/-- One competitor record built by extract_competitor_data:
a dict with url, text and word_count. -/
structure CompetitorEntry where
  url : String
  text : String
  word_count : Nat
deriving Repr, DecidableEq

/-- The uploaded keyword table (pandas DataFrame): a header row and data rows. -/
structure DataFrame where
  header : List String
  rows : List (List String)
deriving Repr, DecidableEq

/-- pandas DataFrame.head(n): the first n rows. -/
def df_head (n : Nat) (df : DataFrame) : DataFrame :=
  { df with rows := df.rows.take n }

/-- One CSV line: cells joined by commas. -/
def csvLine (cells : List String) : String :=
  String.intercalate "," cells

/-- pandas DataFrame.to_csv(index=False): header line then one line per row. -/
def df_to_csv (df : DataFrame) : String :=
  csvLine df.header ++ "\n" ++ String.join (df.rows.map (fun r => csvLine r ++ "\n"))

/-- One openai.ChatCompletion.create invocation: model name, the two
messages, sampling temperature (in tenths) and max_tokens. -/
structure ChatCall where
  model : String
  system : String
  user : String
  temperatureTenths : Nat
  max_tokens : Nat
deriving Repr, DecidableEq

/-- Oracles for the external world: the newspaper3k Article path, the
requests+BeautifulSoup path (each either returns text or raises), the
google search generator (the URLs it yields before an optional mid-iteration
exception), and the chat-completion service (first choice content). -/
structure Oracles where
  article : String → Except String String
  rawGet : String → Except String String
  searchGen : String → Nat → List String × Option String
  chat : ChatCall → String

/-! ## Text Extractor (extract_text_from_url) -/

/-- extract_text_from_url: try newspaper3k; on exception fall back to
requests.get + BeautifulSoup get_text; if that also raises, return "". -/
def extract_text_from_url (o : Oracles) (url : String) : String :=
  match o.article url with
  | Except.ok t => t
  | Except.error _ =>
    match o.rawGet url with
    | Except.ok t => t
    | Except.error _ => ""

/-- A requests.get call record: the url and the timeout argument passed
(none when the keyword is not given, in which case requests enforces no
timeout). -/
structure HttpGetCall where
  url : String
  timeout : Option Nat
deriving Repr, DecidableEq

/-- The raw requests.get call issued by the fallback path of
extract_text_from_url: the source passes only the url, no timeout keyword
(src/app.py line 74: resp = requests.get(url)). -/
def fallback_get_call (url : String) : HttpGetCall :=
  { url := url, timeout := none }

/-- The raw requests.get calls that extract_text_from_url itself issues:
none when the newspaper3k path succeeds, and the no-timeout fallback call
when it raises. -/
def extract_text_from_url_calls (o : Oracles) (url : String) : List HttpGetCall :=
  match o.article url with
  | Except.ok _ => []
  | Except.error _ => [fallback_get_call url]

/-! ## Search Collector (perform_google_search) -/

/-- perform_google_search: iterate the search generator appending each URL;
a provider exception is caught and turned into a st.warning, returning the
URLs collected so far.  Returns (results, warnings). -/
def perform_google_search (o : Oracles) (query : String) (num_results : Nat) :
    List String × List String :=
  let gen := o.searchGen query num_results
  match gen.2 with
  | none => (gen.1, [])
  | some e => (gen.1, ["Fehler bei Google-Suche: " ++ e])

/-! ## Competitor Aggregator (extract_competitor_data) -/

/-- extract_competitor_data: one entry per URL, in order; text is the
stripped extraction result (possibly a failure placeholder), word_count is
len(text.split()). -/
def extract_competitor_data (o : Oracles) (urls : List String) : List CompetitorEntry :=
  urls.map (fun u =>
    let txt := pyStrip (extract_text_from_url o u)
    { url := u, text := txt, word_count := (pySplit txt).length })

/-! ## Content Analyzer (analyze_content_with_openai) -/

def analyzeSystemMsg : String :=
  "Du bist ein SEO-Experte und hilfst mir, Text auf Optimierungspotenzial zu analysieren."

/-- The `if meta_info:` block of analyze_content_with_openai. -/
def zusatzInfos : Option String → String
  | some m => "\nZusätzliche Infos: " ++ m ++ "\n"
  | none => ""

def analyze_user_msg (content : String) (meta_info : Option String) : String :=
  "Hier ist ein Artikeltext:\n\n" ++ content ++ "\n\n" ++
    zusatzInfos meta_info ++
    "\nBitte fasse Stärken/Schwächen zusammen und identifiziere SEO-Optimierungspotenziale."

/-- analyze_content_with_openai: build the two-message exchange and submit
it; returns (first choice content, the call issued). -/
def analyze_content_with_openai (o : Oracles) (content : String)
    (meta_info : Option String) : String × ChatCall :=
  let call : ChatCall :=
    { model := "gpt-3.5-turbo", system := analyzeSystemMsg,
      user := analyze_user_msg content meta_info,
      temperatureTenths := 7, max_tokens := 800 }
  (o.chat call, call)

/-! ## Benchmark Analyzer (benchmark_analysis_with_openai) -/

def benchSystemMsg : String :=
  "Du bist ein erfahrener SEO und Content-Analyst. Du vergleichst mehrere Texte zu demselben Thema."

/-- One competitor block of the benchmark prompt: url, word count, and the
first 1000 characters of the text. -/
def competitor_summary (c : CompetitorEntry) : String :=
  "URL: " ++ c.url ++ "\nWortanzahl: " ++ toString c.word_count ++
    "\nTextauszug:\n" ++ pyTake 1000 c.text ++ "\n\n"

/-- The competitor_summaries accumulator loop (+= over the list). -/
def competitor_summaries : List CompetitorEntry → String
  | [] => ""
  | c :: cs => competitor_summary c ++ competitor_summaries cs

/-- The `if meta_info:` block of benchmark_analysis_with_openai. -/
def zusatzMetaInfos : Option String → String
  | some m => "\nZusätzliche Meta-Infos: " ++ m ++ "\n"
  | none => ""

def benchmark_user_msg (own_content : String) (competitors_info : List CompetitorEntry)
    (meta_info : Option String) : String :=
  "Mein eigener Artikeltext:\n    " ++ pyTake 1500 own_content ++
    "\n\n    Hier sind Auszüge aus Artikeln, die in Google top ranken:\n    " ++
    competitor_summaries competitors_info ++
    "\n\n    Bitte vergleiche meinen Artikel mit diesen Top-Artikeln:\n    - Welche inhaltlichen Themen decken die Wettbewerber ab, die mir fehlen?\n    - Welche Textlänge, Keyword-Fokus, Struktur sind bei den Top-Artikeln üblich?\n    - Wo siehst du Content-Gaps?\n    " ++
    zusatzMetaInfos meta_info

/-- benchmark_analysis_with_openai: returns (first choice content, the call issued). -/
def benchmark_analysis_with_openai (o : Oracles) (own_content : String)
    (competitors_info : List CompetitorEntry) (meta_info : Option String) :
    String × ChatCall :=
  let call : ChatCall :=
    { model := "gpt-3.5-turbo", system := benchSystemMsg,
      user := benchmark_user_msg own_content competitors_info meta_info,
      temperatureTenths := 7, max_tokens := 1000 }
  (o.chat call, call)

/-! ## Briefing Composer (generate_seo_briefing) -/

def briefingSystemMsg : String :=
  "Du bist ein professioneller SEO-Briefing-Assistent."

/-- The keyword part of the briefing prompt: present only when a DataFrame
was uploaded, rendering head(10) as CSV. -/
def kw_section : Option DataFrame → String
  | some df =>
    "\nHier sind einige relevante Keywords mit Suchvolumen:\n" ++
      df_to_csv (df_head 10 df) ++ "\n"
  | none => ""

def briefingOutline : String :=
  "\n    Bitte erstelle nun ein strukturiertes SEO-Texter-Briefing:\n\n    1. Kurze Zusammenfassung des bestehenden Artikels\n    2. Content-Gaps und empfohlene Änderungen/Ergänzungen\n    3. Vorschläge für Textstruktur und Absatzthemen\n    4. Keyword-Empfehlungen (Fokus und Nebenkeywords) inkl. Platzierung\n    5. Aktualisierungen auf Basis aktueller Trends/Infos\n    6. Weitere SEO-Hinweise (z.B. Meta-Daten, interne Verlinkung, EEAT)\n\n    Das Briefing soll so geschrieben sein, dass ein Texter es direkt umsetzen kann.\n    "

/-- The `if meta_info:` block of generate_seo_briefing. -/
def kontextPart : Option String → String
  | some m => "\nKontext: " ++ m ++ "\n"
  | none => ""

def briefing_user_msg (own_content initial_analysis benchmark_analysis : String)
    (keywords_df : Option DataFrame) (meta_info : Option String) : String :=
  "\n    Mein eigener Artikel (Kurzfassung, max. 1000 Zeichen):\n    " ++
    pyTake 1000 own_content ++
    "\n    \n    Erste Analyse (Stärken/Schwächen):\n    " ++ initial_analysis ++
    "\n\n    Benchmark-Analyse:\n    " ++ benchmark_analysis ++ "\n\n    " ++
    kw_section keywords_df ++
    kontextPart meta_info ++
    briefingOutline

/-- generate_seo_briefing: returns (first choice content, the call issued). -/
def generate_seo_briefing (o : Oracles) (own_content initial_analysis benchmark_analysis : String)
    (keywords_df : Option DataFrame) (meta_info : Option String) :
    String × ChatCall :=
  let call : ChatCall :=
    { model := "gpt-3.5-turbo", system := briefingSystemMsg,
      user := briefing_user_msg own_content initial_analysis benchmark_analysis keywords_df meta_info,
      temperatureTenths := 7, max_tokens := 1500 }
  (o.chat call, call)

/-! ## The script run (orchestration) -/

/-- User-visible messages of the script. -/
def errNoInput : String :=
  "Bitte gib mindestens eine URL oder einen direkten Text ein."

def warnBothInputs : String :=
  "Es wurde sowohl eine URL als auch ein Text eingegeben. Bevorzugt wird der direkt eingegebene Text."

def warnNoFokus : String :=
  "Bitte gib ein Fokus-Keyword an, damit die Benchmark-Suche durchgeführt werden kann."

def errNoAnalysis : String :=
  "Bitte zuerst eine Analyse durchführen."

/-- The form state and button presses of one script run. -/
structure Inputs where
  url_input : String
  text_input : String
  zielgruppe : String
  ziel_des_artikels : String
  fokus_keyword : String
  keywords_df : Option DataFrame
  analyzeBtn : Bool
  benchmarkBtn : Bool
  briefingBtn : Bool

/-- Result of the input-capture section (lines 104-111). -/
structure CaptureOut where
  content_to_analyze : String
  warnings : List String
  fetches : List String
deriving Repr

/-- Lines 104-111: content_to_analyze from url_input / text_input,
with Python truthiness on the branch conditions. -/
def captureContent (o : Oracles) (url_input text_input : String) : CaptureOut :=
  if pyTruthy url_input && pyTruthy text_input then
    { content_to_analyze := pyStrip text_input, warnings := [warnBothInputs], fetches := [] }
  else if pyTruthy url_input && !(pyTruthy text_input) then
    { content_to_analyze := pyStrip (extract_text_from_url o url_input),
      warnings := [], fetches := [url_input] }
  else if pyTruthy text_input && !(pyTruthy url_input) then
    { content_to_analyze := pyStrip text_input, warnings := [], fetches := [] }
  else
    { content_to_analyze := "", warnings := [], fetches := [] }

/-- Result of the analysis section (lines 113-121). -/
structure AnalyzeOut where
  analysis_result : Option String
  errors : List String
  calls : List ChatCall

/-- Lines 113-121: on the analyze button, error when content_to_analyze is
falsy, otherwise call analyze_content_with_openai. -/
def analyzeStage (o : Oracles) (inp : Inputs) (content : String) : AnalyzeOut :=
  if inp.analyzeBtn then
    if !(pyTruthy content) then
      { analysis_result := none, errors := [errNoInput], calls := [] }
    else
      let meta_info := "Zielgruppe: " ++ inp.zielgruppe ++ ", Ziel: " ++
        inp.ziel_des_artikels ++ ", Fokus-Keyword: " ++ inp.fokus_keyword
      let r := analyze_content_with_openai o content (some meta_info)
      { analysis_result := some r.1, errors := [], calls := [r.2] }
  else
    { analysis_result := none, errors := [], calls := [] }

/-- Result of the benchmark section (lines 185-203). -/
structure BenchOut where
  benchmark_result : Option String
  warnings : List String
  searchQueries : List String
  searchWarnings : List String
  competitorFetches : List String
  calls : List ChatCall

/-- Lines 185-203: reachable only when analysis_result is truthy; on the
trigger, warn when fokus_keyword is falsy, else search, aggregate
competitors and call benchmark_analysis_with_openai. -/
def benchStage (o : Oracles) (inp : Inputs) (content : String)
    (analysis_result : Option String) : BenchOut :=
  if optTruthy analysis_result && inp.benchmarkBtn then
    if !(pyTruthy inp.fokus_keyword) then
      { benchmark_result := none, warnings := [warnNoFokus], searchQueries := [],
        searchWarnings := [], competitorFetches := [], calls := [] }
    else
      let sr := perform_google_search o inp.fokus_keyword 3
      let comps := extract_competitor_data o sr.1
      let br := benchmark_analysis_with_openai o content comps
        (some ("Fokus-Keyword: " ++ inp.fokus_keyword))
      { benchmark_result := some br.1, warnings := [], searchQueries := [inp.fokus_keyword],
        searchWarnings := sr.2, competitorFetches := sr.1, calls := [br.2] }
  else
    { benchmark_result := none, warnings := [], searchQueries := [],
      searchWarnings := [], competitorFetches := [], calls := [] }

/-- Result of the briefing section (lines 260-277). -/
structure BriefOut where
  final_briefing : Option String
  errors : List String
  calls : List ChatCall

/-- Lines 260-277: on the briefing button, error when analysis_result is
falsy, else call generate_seo_briefing with benchmark_result or "". -/
def briefingStage (o : Oracles) (inp : Inputs) (content : String)
    (analysis_result benchmark_result : Option String) : BriefOut :=
  if inp.briefingBtn then
    if !(optTruthy analysis_result) then
      { final_briefing := none, errors := [errNoAnalysis], calls := [] }
    else
      let benchmark_info := match benchmark_result with
        | some s => s
        | none => ""
      let meta3 := "Zielgruppe: " ++ inp.zielgruppe ++ ", Ziel des Artikels: " ++
        inp.ziel_des_artikels ++ ", Fokus-Keyword: " ++ inp.fokus_keyword
      let g := generate_seo_briefing o content
        (match analysis_result with | some s => s | none => "")
        benchmark_info inp.keywords_df (some meta3)
      { final_briefing := some g.1, errors := [], calls := [g.2] }
  else
    { final_briefing := none, errors := [], calls := [] }

/-- Everything observable about one straight-line run of the script. -/
structure RunResult where
  content_to_analyze : String
  captureWarnings : List String
  captureFetches : List String
  analysis_result : Option String
  analyzeErrors : List String
  analyzeCalls : List ChatCall
  benchmark_result : Option String
  benchWarnings : List String
  searchQueries : List String
  searchWarnings : List String
  competitorFetches : List String
  benchCalls : List ChatCall
  briefingErrors : List String
  briefingCalls : List ChatCall
  final_briefing : Option String

/-- One top-to-bottom run of app.py for a given form state. -/
def runApp (o : Oracles) (inp : Inputs) : RunResult :=
  let cap := captureContent o inp.url_input inp.text_input
  let an := analyzeStage o inp cap.content_to_analyze
  let be := benchStage o inp cap.content_to_analyze an.analysis_result
  let br := briefingStage o inp cap.content_to_analyze an.analysis_result be.benchmark_result
  { content_to_analyze := cap.content_to_analyze
    captureWarnings := cap.warnings
    captureFetches := cap.fetches
    analysis_result := an.analysis_result
    analyzeErrors := an.errors
    analyzeCalls := an.calls
    benchmark_result := be.benchmark_result
    benchWarnings := be.warnings
    searchQueries := be.searchQueries
    searchWarnings := be.searchWarnings
    competitorFetches := be.competitorFetches
    benchCalls := be.calls
    briefingErrors := br.errors
    briefingCalls := br.calls
    final_briefing := br.final_briefing }

/-! ## Helper lemmas -/

@[simp] theorem pyTruthy_eq_true {s : String} : pyTruthy s = true ↔ s ≠ "" := by
  simp [pyTruthy]

@[simp] theorem pyTruthy_eq_false {s : String} : pyTruthy s = false ↔ s = "" := by
  simp [pyTruthy]

theorem strAppendAssoc (a b c : String) : a ++ b ++ c = a ++ (b ++ c) := by
  cases a with
  | mk da =>
    cases b with
    | mk db =>
      cases c with
      | mk dc =>
        show String.mk (da ++ db ++ dc) = String.mk (da ++ (db ++ dc))
        rw [List.append_assoc]

theorem pyTake_length (n : Nat) (s : String) : (pyTake n s).length = min n s.length := by
  show (s.data.take n).length = min n s.data.length
  exact List.length_take n s.data

theorem pyTake_length_of_gt {n : Nat} {s : String} (h : n < s.length) :
    (pyTake n s).length = n := by
  rw [pyTake_length]
  omega

theorem pyTake_ne_of_gt {n : Nat} {s : String} (h : n < s.length) :
    pyTake n s ≠ s := by
  intro he
  have := congrArg String.length he
  rw [pyTake_length_of_gt h] at this
  omega

theorem pyTake_length_le (n : Nat) (s : String) : (pyTake n s).length ≤ n := by
  rw [pyTake_length]
  omega

theorem pyStrip_all_space {s : String} (hw : ∀ c ∈ s.data, pyIsSpace c = true) :
    pyStrip s = "" := by
  unfold pyStrip
  have h1 : s.data.dropWhile pyIsSpace = [] := by
    rw [List.dropWhile_eq_nil_iff]
    exact hw
  rw [h1]
  rfl

/-! ## Concrete fixtures for witnesses -/

/-- An oracle world where every fetch raises, search yields nothing, and the
model answers "ok". -/
def oTrivial : Oracles :=
  { article := fun _ => Except.error "net down",
    rawGet := fun _ => Except.error "net down",
    searchGen := fun _ _ => ([], none),
    chat := fun _ => "ok" }

/-- An oracle world whose search generator yields one URL and then raises. -/
def oSearchFail : Oracles :=
  { article := fun _ => Except.error "net down",
    rawGet := fun _ => Except.error "net down",
    searchGen := fun _ _ => (["https://r1.example"], some "boom"),
    chat := fun _ => "ok" }

/-- A blank form with no button pressed. -/
def inpBase : Inputs :=
  { url_input := "", text_input := "", zielgruppe := "", ziel_des_artikels := "",
    fokus_keyword := "", keywords_df := none,
    analyzeBtn := false, benchmarkBtn := false, briefingBtn := false }


/-! ## C6: extractor failure result -/

/-- C6 counterexample: when both the newspaper3k path and the
requests+BeautifulSoup fallback raise, extract_text_from_url returns the
empty string, not a non-empty diagnostic string — the claim as stated is
false at this input. -/
theorem C6_extract_failure_empty_cex :
    oTrivial.article "https://example.com" = Except.error "net down" ∧
    oTrivial.rawGet "https://example.com" = Except.error "net down" ∧
    ¬ extract_text_from_url oTrivial "https://example.com" ≠ "" :=
  ⟨rfl, rfl, fun h => h rfl⟩

/-- C6 amended: on a URL where both the primary extraction and the fallback
raise, extract_text_from_url returns a string (it does not raise), but that
string is the empty string, not a non-empty diagnostic. -/
theorem C6_extract_failure_returns_empty (o : Oracles) (url e1 e2 : String)
    (h1 : o.article url = Except.error e1) (h2 : o.rawGet url = Except.error e2) :
    extract_text_from_url o url = "" := by
  unfold extract_text_from_url
  rw [h1, h2]

/-- C6 witness: the amended theorem applied at a concrete failing world. -/
theorem C6_extract_failure_returns_empty_witness :
    extract_text_from_url oTrivial "https://example.com" = "" :=
  C6_extract_failure_returns_empty oTrivial "https://example.com" "net down" "net down" rfl rfl

/-! ## C9: timeout on the raw HTTP fetch -/

/-- C9 counterexample: in a world where the newspaper3k path raises, the
Text Extractor issues a raw requests.get fetch that carries no timeout
argument at all, so it is not true that every raw HTTP document fetch is
issued with a fixed, bounded call timeout. -/
theorem C9_fetch_timeout_cex :
    extract_text_from_url_calls oTrivial "https://example.com" =
      [fallback_get_call "https://example.com"] ∧
    ¬ (∀ c ∈ extract_text_from_url_calls oTrivial "https://example.com",
        c.timeout.isSome = true) := by
  constructor
  · rfl
  · intro h
    have := h (fallback_get_call "https://example.com") (by decide)
    simp [fallback_get_call] at this

/-- C9 amended: every raw requests.get fetch that extract_text_from_url
issues is issued with no explicit timeout argument (requests then enforces
no call timeout). -/
theorem C9_fetch_no_timeout (o : Oracles) (url : String) (c : HttpGetCall)
    (hc : c ∈ extract_text_from_url_calls o url) : c.timeout = none := by
  unfold extract_text_from_url_calls at hc
  cases h : o.article url with
  | ok t => rw [h] at hc; cases hc
  | error e =>
    rw [h] at hc
    rcases List.mem_singleton.mp hc with rfl
    rfl

/-- C9 witness: the amended theorem applied at a concrete world where the
fallback fetch is issued. -/
theorem C9_fetch_no_timeout_witness :
    (fallback_get_call "https://example.com").timeout = none :=
  C9_fetch_no_timeout oTrivial "https://example.com" _ (by decide)

/-! ## C7: search provider failure policy -/

/-- C7: perform_google_search always returns the list of URLs collected
before any provider error; on a provider error it surfaces a non-fatal
warning, and with no error it warns nothing.  (Errors never propagate: the
function is total and always returns its collected list.) -/
theorem C7_search_error_policy (o : Oracles) (query : String) (n : Nat) :
    (perform_google_search o query n).1 = (o.searchGen query n).1 ∧
    ((o.searchGen query n).2 = none → (perform_google_search o query n).2 = []) ∧
    (∀ e, (o.searchGen query n).2 = some e →
      (perform_google_search o query n).2 = ["Fehler bei Google-Suche: " ++ e]) := by
  unfold perform_google_search
  cases h : (o.searchGen query n).2 with
  | none => simp [h]
  | some e => simp [h]

/-- C7 witness: at a provider that yields one URL then raises, the partial
result is returned and a warning is surfaced. -/
theorem C7_search_error_policy_witness :
    (perform_google_search oSearchFail "k" 3).1 = ["https://r1.example"] ∧
    (perform_google_search oSearchFail "k" 3).2 = ["Fehler bei Google-Suche: boom"] := by
  have h := C7_search_error_policy oSearchFail "k" 3
  exact ⟨h.1, h.2.2 "boom" rfl⟩

/-! ## C3: competitor aggregation shape -/

/-- C3: extract_competitor_data returns one entry per input URL, in the
same order (entry i carries url i, even for failed extractions), with text
the stripped extraction result and word_count the number of
whitespace-delimited tokens of that text. -/
theorem C3_extract_competitor_data_shape (o : Oracles) (urls : List String) :
    (extract_competitor_data o urls).length = urls.length ∧
    ∀ i (hi : i < urls.length) (hc : i < (extract_competitor_data o urls).length),
      ((extract_competitor_data o urls).get ⟨i, hc⟩).url = urls.get ⟨i, hi⟩ ∧
      ((extract_competitor_data o urls).get ⟨i, hc⟩).text =
        pyStrip (extract_text_from_url o (urls.get ⟨i, hi⟩)) ∧
      ((extract_competitor_data o urls).get ⟨i, hc⟩).word_count =
        (pySplit ((extract_competitor_data o urls).get ⟨i, hc⟩).text).length := by
  refine ⟨by simp [extract_competitor_data], ?_⟩
  intro i hi hc
  simp [extract_competitor_data]

/-- C3 witness: two URLs in a failing world still give two ordered entries
with zero word counts. -/
theorem C3_extract_competitor_data_shape_witness :
    (extract_competitor_data oTrivial ["https://a.example", "https://b.example"]).length = 2 ∧
    ((extract_competitor_data oTrivial ["https://a.example", "https://b.example"]).get
      ⟨1, by decide⟩).url = "https://b.example" := by
  have h := C3_extract_competitor_data_shape oTrivial ["https://a.example", "https://b.example"]
  exact ⟨h.1, (h.2 1 (by decide) (by decide)).1⟩

/-! ## C2: direct text wins and bypasses the network -/

/-- C2: whenever the direct text input is non-empty (in particular when a
URL is supplied as well), the captured content fed to all downstream stages
is the stripped typed text, and no extract_text_from_url fetch happens on
the input-capture path. -/
theorem C2_text_input_wins (o : Oracles) (inp : Inputs)
    (ht : inp.text_input ≠ "") :
    (runApp o inp).content_to_analyze = pyStrip inp.text_input ∧
    (runApp o inp).captureFetches = [] := by
  have h : pyTruthy inp.text_input = true := pyTruthy_eq_true.mpr ht
  unfold runApp captureContent
  cases hu : pyTruthy inp.url_input <;> simp [h, hu]

/-- C2 witness: with both a URL and a text supplied, the content is the
stripped text and no fetch is recorded. -/
theorem C2_text_input_wins_witness :
    (runApp oTrivial
      { inpBase with url_input := "https://a.example", text_input := " mein Text " }).content_to_analyze
        = pyStrip " mein Text " ∧
    (runApp oTrivial
      { inpBase with url_input := "https://a.example", text_input := " mein Text " }).captureFetches
        = [] :=
  C2_text_input_wins oTrivial
    { inpBase with url_input := "https://a.example", text_input := " mein Text " }
    (by decide)

/-! ## Stage gate lemmas -/

theorem analyzeStage_gate (o : Oracles) (inp : Inputs) (c : String) :
    ((analyzeStage o inp c).calls ≠ [] → c ≠ "") ∧
    (inp.analyzeBtn = true → c = "" →
      (analyzeStage o inp c).errors = [errNoInput] ∧
      (analyzeStage o inp c).analysis_result = none ∧
      (analyzeStage o inp c).calls = []) := by
  cases hb : inp.analyzeBtn with
  | false => unfold analyzeStage; rw [hb]; simp
  | true =>
    unfold analyzeStage
    rw [hb]
    by_cases hc : c = ""
    · subst hc
      have hf : pyTruthy "" = false := rfl
      simp [hf]
    · have hct : pyTruthy c = true := pyTruthy_eq_true.mpr hc
      simp [hct, hc]

theorem briefingStage_gate (o : Oracles) (inp : Inputs) (c : String) (ar br : Option String) :
    ((briefingStage o inp c ar br).calls ≠ [] → optTruthy ar = true) ∧
    (inp.briefingBtn = true → optTruthy ar = false →
      (briefingStage o inp c ar br).errors = [errNoAnalysis] ∧
      (briefingStage o inp c ar br).final_briefing = none ∧
      (briefingStage o inp c ar br).calls = []) := by
  cases hb : inp.briefingBtn with
  | false => unfold briefingStage; rw [hb]; simp
  | true =>
    unfold briefingStage
    rw [hb]
    cases har : optTruthy ar with
    | false => simp [har]
    | true => simp [har]

theorem benchStage_no_keyword (o : Oracles) (inp : Inputs) (c : String) (ar : Option String)
    (hb : inp.benchmarkBtn = true) (hf : inp.fokus_keyword = "") :
    (benchStage o inp c ar).searchQueries = [] ∧
    (benchStage o inp c ar).competitorFetches = [] ∧
    (benchStage o inp c ar).calls = [] ∧
    (benchStage o inp c ar).benchmark_result = none ∧
    (optTruthy ar = true → (benchStage o inp c ar).warnings = [warnNoFokus]) := by
  have hpf : pyTruthy inp.fokus_keyword = false := pyTruthy_eq_false.mpr hf
  unfold benchStage
  cases har : optTruthy ar <;> simp [hb, har, hpf]

/-! ## C1: pipeline gating -/

/-- C1: analyze_content_with_openai is called only when the captured
content is non-empty, and generate_seo_briefing only when a truthy
analysis result exists; on an empty upstream field the stage reports
st.error and produces no output. -/
theorem C1_pipeline_gating (o : Oracles) (inp : Inputs) :
    ((runApp o inp).analyzeCalls ≠ [] → (runApp o inp).content_to_analyze ≠ "") ∧
    (inp.analyzeBtn = true → (runApp o inp).content_to_analyze = "" →
      (runApp o inp).analyzeErrors = [errNoInput] ∧
      (runApp o inp).analysis_result = none ∧
      (runApp o inp).analyzeCalls = []) ∧
    ((runApp o inp).briefingCalls ≠ [] → optTruthy (runApp o inp).analysis_result = true) ∧
    (inp.briefingBtn = true → optTruthy (runApp o inp).analysis_result = false →
      (runApp o inp).briefingErrors = [errNoAnalysis] ∧
      (runApp o inp).final_briefing = none ∧
      (runApp o inp).briefingCalls = []) := by
  have ha := analyzeStage_gate o inp
    (captureContent o inp.url_input inp.text_input).content_to_analyze
  have hb := briefingStage_gate o inp
    (captureContent o inp.url_input inp.text_input).content_to_analyze
    (analyzeStage o inp (captureContent o inp.url_input inp.text_input).content_to_analyze).analysis_result
    (benchStage o inp (captureContent o inp.url_input inp.text_input).content_to_analyze
      (analyzeStage o inp (captureContent o inp.url_input inp.text_input).content_to_analyze).analysis_result).benchmark_result
  exact ⟨ha.1, ha.2, hb.1, hb.2⟩

/-- C1 witness: at concrete runs, the missing-input and missing-analysis
errors fire with no output, and with a direct text both gates are open. -/
theorem C1_pipeline_gating_witness :
    (runApp oTrivial { inpBase with analyzeBtn := true }).analyzeErrors = [errNoInput] ∧
    (runApp oTrivial { inpBase with analyzeBtn := true }).analysis_result = none ∧
    (runApp oTrivial { inpBase with briefingBtn := true }).briefingErrors = [errNoAnalysis] ∧
    (runApp oTrivial { inpBase with briefingBtn := true }).final_briefing = none ∧
    (runApp oTrivial
      { inpBase with text_input := "hallo", analyzeBtn := true, briefingBtn := true }).content_to_analyze ≠ "" ∧
    optTruthy (runApp oTrivial
      { inpBase with text_input := "hallo", analyzeBtn := true, briefingBtn := true }).analysis_result = true := by
  have h1 := C1_pipeline_gating oTrivial { inpBase with analyzeBtn := true }
  have h2 := C1_pipeline_gating oTrivial { inpBase with briefingBtn := true }
  have h3 := C1_pipeline_gating oTrivial
    { inpBase with text_input := "hallo", analyzeBtn := true, briefingBtn := true }
  exact ⟨(h1.2.1 rfl rfl).1, (h1.2.1 rfl rfl).2.1,
    (h2.2.2.2 rfl rfl).1, (h2.2.2.2 rfl rfl).2.1,
    h3.1 (by decide), h3.2.2.1 (by decide)⟩

/-! ## C8: benchmark with empty focus keyword -/

/-- C8: when the benchmark button is pressed with an empty focus keyword,
no google search is issued, no competitor URL is fetched, no benchmark
model call happens and no benchmark output exists; when the benchmark
section is reachable (truthy analysis result) the no-keyword warning is
shown instead. -/
theorem C8_no_keyword_no_search (o : Oracles) (inp : Inputs)
    (hb : inp.benchmarkBtn = true) (hf : inp.fokus_keyword = "") :
    (runApp o inp).searchQueries = [] ∧
    (runApp o inp).competitorFetches = [] ∧
    (runApp o inp).benchCalls = [] ∧
    (runApp o inp).benchmark_result = none ∧
    (optTruthy (runApp o inp).analysis_result = true →
      (runApp o inp).benchWarnings = [warnNoFokus]) :=
  benchStage_no_keyword o inp
    (captureContent o inp.url_input inp.text_input).content_to_analyze
    (analyzeStage o inp (captureContent o inp.url_input inp.text_input).content_to_analyze).analysis_result
    hb hf

/-- C8 witness: analysis done on a direct text, benchmark pressed with an
empty keyword — the warning fires and no search happens. -/
theorem C8_no_keyword_no_search_witness :
    (runApp oTrivial
      { inpBase with text_input := "hallo", analyzeBtn := true, benchmarkBtn := true }).searchQueries = [] ∧
    (runApp oTrivial
      { inpBase with text_input := "hallo", analyzeBtn := true, benchmarkBtn := true }).benchWarnings = [warnNoFokus] := by
  have h := C8_no_keyword_no_search oTrivial
    { inpBase with text_input := "hallo", analyzeBtn := true, benchmarkBtn := true } rfl rfl
  exact ⟨h.1, h.2.2.2.2 (by decide)⟩

/-! ## C10: whitespace-only direct text -/

/-- C10: the captured content is stripped before the presence check, so a
whitespace-only direct text triggers the missing-input error and the
Content Analyzer is never called. -/
theorem C10_whitespace_only_text (o : Oracles) (inp : Inputs)
    (ha : inp.analyzeBtn = true) (ht : inp.text_input ≠ "")
    (hw : ∀ c ∈ inp.text_input.data, pyIsSpace c = true) :
    (runApp o inp).content_to_analyze = "" ∧
    (runApp o inp).analyzeErrors = [errNoInput] ∧
    (runApp o inp).analyzeCalls = [] ∧
    (runApp o inp).analysis_result = none := by
  have hstrip : pyStrip inp.text_input = "" := pyStrip_all_space hw
  have htt : pyTruthy inp.text_input = true := pyTruthy_eq_true.mpr ht
  have hcontent : (captureContent o inp.url_input inp.text_input).content_to_analyze = "" := by
    unfold captureContent
    cases hu : pyTruthy inp.url_input <;> simp [htt, hu, hstrip]
  have hg := (analyzeStage_gate o inp
    (captureContent o inp.url_input inp.text_input).content_to_analyze).2 ha hcontent
  exact ⟨hcontent, hg.1, hg.2.2, hg.2.1⟩

/-- C10 witness: a single-blank text with the analyze button pressed. -/
theorem C10_whitespace_only_text_witness :
    (runApp oTrivial { inpBase with text_input := " ", analyzeBtn := true }).content_to_analyze = "" ∧
    (runApp oTrivial { inpBase with text_input := " ", analyzeBtn := true }).analyzeErrors = [errNoInput] ∧
    (runApp oTrivial { inpBase with text_input := " ", analyzeBtn := true }).analyzeCalls = [] :=
  have h := C10_whitespace_only_text oTrivial
    { inpBase with text_input := " ", analyzeBtn := true } rfl (by decide) (by decide)
  ⟨h.1, h.2.1, h.2.2.1⟩

/-! ## C4: keyword-table truncation -/

/-- C4: with an uploaded table of more than 10 rows, the rendering embedded
in the briefing prompt is the CSV of head(10): exactly the first 10 rows,
in their original order, and no row beyond the tenth. -/
theorem C4_keyword_truncation (own initial bench meta : String) (df : DataFrame)
    (h : df.rows.length > 10) :
    (∃ p q, briefing_user_msg own initial bench (some df) (some meta) =
      p ++ df_to_csv (df_head 10 df) ++ q) ∧
    (df_head 10 df).rows = df.rows.take 10 ∧
    (df_head 10 df).rows.length = 10 ∧
    (∀ i (hh : i < (df_head 10 df).rows.length) (hr : i < df.rows.length),
      (df_head 10 df).rows.get ⟨i, hh⟩ = df.rows.get ⟨i, hr⟩) := by
  refine ⟨⟨"\n    Mein eigener Artikel (Kurzfassung, max. 1000 Zeichen):\n    " ++
      pyTake 1000 own ++ "\n    \n    Erste Analyse (Stärken/Schwächen):\n    " ++
      initial ++ "\n\n    Benchmark-Analyse:\n    " ++ bench ++ "\n\n    " ++
      "\nHier sind einige relevante Keywords mit Suchvolumen:\n",
    "\n" ++ kontextPart (some meta) ++ briefingOutline, ?_⟩, rfl, ?_, ?_⟩
  · simp only [briefing_user_msg, kw_section, strAppendAssoc]
  · simp [df_head]
    omega
  · intro i hh hr
    simp [df_head, List.getElem_take]

/-- C4 witness: an 11-row table is rendered from exactly its first 10 rows. -/
theorem C4_keyword_truncation_witness :
    (df_head 10 { header := ["Keyword", "Search Volume"],
                  rows := List.replicate 11 ["seo", "100"] }).rows.length = 10 :=
  (C4_keyword_truncation "" "" "" ""
    { header := ["Keyword", "Search Volume"], rows := List.replicate 11 ["seo", "100"] }
    (by decide)).2.2.1

/-! ## C5: excerpt bounding -/

theorem competitor_summaries_decomp (c : CompetitorEntry) :
    ∀ cs : List CompetitorEntry, c ∈ cs →
      ∃ p q, competitor_summaries cs = p ++ pyTake 1000 c.text ++ q := by
  intro cs
  induction cs with
  | nil => intro h; cases h
  | cons d ds ih =>
    intro h
    rcases List.mem_cons.mp h with rfl | h
    · refine ⟨"URL: " ++ c.url ++ "\nWortanzahl: " ++ toString c.word_count ++ "\nTextauszug:\n",
        "\n\n" ++ competitor_summaries ds, ?_⟩
      simp only [competitor_summaries, competitor_summary, strAppendAssoc]
    · obtain ⟨p, q, hpq⟩ := ih h
      refine ⟨competitor_summary d ++ p, q, ?_⟩
      simp only [competitor_summaries, hpq, strAppendAssoc]

/-- C5: for own content longer than 1500 characters, the benchmark prompt
embeds exactly its first 1500 characters and the briefing prompt exactly
its first 1000, never the full text; each competitor excerpt in the
benchmark prompt is at most its first 1000 characters. -/
theorem C5_excerpt_bounds (own initial bench meta : String) (cs : List CompetitorEntry)
    (kdf : Option DataFrame) (h1500 : own.length > 1500) :
    ((∃ p q, benchmark_user_msg own cs (some meta) = p ++ pyTake 1500 own ++ q) ∧
      (pyTake 1500 own).length = 1500 ∧ pyTake 1500 own ≠ own) ∧
    ((∃ p q, briefing_user_msg own initial bench kdf (some meta) =
        p ++ pyTake 1000 own ++ q) ∧
      (pyTake 1000 own).length = 1000 ∧ pyTake 1000 own ≠ own) ∧
    (∀ c ∈ cs, (pyTake 1000 c.text).length ≤ 1000 ∧
      ∃ p q, benchmark_user_msg own cs (some meta) = p ++ pyTake 1000 c.text ++ q) := by
  have h1000 : own.length > 1000 := by omega
  refine ⟨⟨⟨"Mein eigener Artikeltext:\n    ",
      "\n\n    Hier sind Auszüge aus Artikeln, die in Google top ranken:\n    " ++
        competitor_summaries cs ++
        "\n\n    Bitte vergleiche meinen Artikel mit diesen Top-Artikeln:\n    - Welche inhaltlichen Themen decken die Wettbewerber ab, die mir fehlen?\n    - Welche Textlänge, Keyword-Fokus, Struktur sind bei den Top-Artikeln üblich?\n    - Wo siehst du Content-Gaps?\n    " ++
        zusatzMetaInfos (some meta), ?_⟩,
      pyTake_length_of_gt h1500, pyTake_ne_of_gt h1500⟩,
    ⟨⟨"\n    Mein eigener Artikel (Kurzfassung, max. 1000 Zeichen):\n    ",
      "\n    \n    Erste Analyse (Stärken/Schwächen):\n    " ++ initial ++
        "\n\n    Benchmark-Analyse:\n    " ++ bench ++ "\n\n    " ++
        kw_section kdf ++ kontextPart (some meta) ++ briefingOutline, ?_⟩,
      pyTake_length_of_gt h1000, pyTake_ne_of_gt h1000⟩, ?_⟩
  · simp only [benchmark_user_msg, strAppendAssoc]
  · simp only [briefing_user_msg, strAppendAssoc]
  · intro c hc
    refine ⟨pyTake_length_le 1000 c.text, ?_⟩
    obtain ⟨p, q, hpq⟩ := competitor_summaries_decomp c cs hc
    refine ⟨"Mein eigener Artikeltext:\n    " ++ pyTake 1500 own ++
      "\n\n    Hier sind Auszüge aus Artikeln, die in Google top ranken:\n    " ++ p,
      q ++
        "\n\n    Bitte vergleiche meinen Artikel mit diesen Top-Artikeln:\n    - Welche inhaltlichen Themen decken die Wettbewerber ab, die mir fehlen?\n    - Welche Textlänge, Keyword-Fokus, Struktur sind bei den Top-Artikeln üblich?\n    - Wo siehst du Content-Gaps?\n    " ++
        zusatzMetaInfos (some meta), ?_⟩
    simp only [benchmark_user_msg, hpq, strAppendAssoc]

/-- A 1501-character own content for the excerpt witness. -/
def longText : String :=
  ⟨List.replicate 1501 'a'⟩

/-- A concrete competitor entry for the excerpt witness. -/
def cW : CompetitorEntry :=
  { url := "https://a.example", text := "kurzer Text", word_count := 2 }

/-- C5 witness: both bounds realised on a concrete 1501-character text. -/
theorem C5_excerpt_bounds_witness :
    (pyTake 1500 longText).length = 1500 ∧ pyTake 1500 longText ≠ longText ∧
    (pyTake 1000 longText).length = 1000 ∧ (pyTake 1000 cW.text).length ≤ 1000 := by
  have hlen : longText.length = 1501 := by
    show (List.replicate 1501 'a').length = 1501
    exact List.length_replicate 1501 'a'
  have h := C5_excerpt_bounds longText "" "" "" [cW] none (by omega)
  exact ⟨h.1.2.1, h.1.2.2, h.2.1.2.1, (h.2.2 cW (by simp)).1⟩
